import Mathlib

/-
Verification of the network-monitor repository (src/monitor.py).

The development shallowly embeds the program:
  * `Monitor` mirrors the object built by `Monitor.__init__`
    (healthy, target, interval, healthy_after, successful_checks_since_down);
    numeric configuration values are Python floats, modelled as rationals,
    and the consecutive-success counter is a Python int that is only ever
    set to 0 or incremented, modelled as a natural number.
  * `monStep` is the per-cycle state update of `Monitor._monitor`
    (the if/elif chain at lines 85-101), with the probe result as input.
  * `monCycle` additionally threads the exit status of the executed command
    through `Monitor._shellexec`, and `monCycleE` makes the Python
    evaluation order of environment lookup / command execution / attribute
    assignment explicit so that exception behaviour can be stated.
  * `is_alive` embeds `Monitor._is_alive` as a function of the outcome of
    the underlying `subprocess.call`.
  * `mainStartup` embeds the configuration reading of `main`.
-/

/-- The transition action of a monitoring cycle: no action, or running the
configured ON_DOWN or ON_UP command. -/
inductive MAction where
  | none
  | runOnDown
  | runOnUp
deriving DecidableEq

/-- The state of the Monitor object, mirroring the attributes set in
`Monitor.__init__` (src/monitor.py lines 50-54). -/
structure Monitor where
  healthy : Bool
  target : String
  interval : ℚ
  healthy_after : ℚ
  successful_checks_since_down : ℕ
deriving DecidableEq

/-- `Monitor.__init__` (src/monitor.py lines 38-54): stores the three
configuration values unchanged and without any validation, and initialises
`healthy = True`, `successful_checks_since_down = 0`. -/
def Monitor.init (target : String) (interval : ℚ) (healthy_after : ℚ) : Monitor :=
  { healthy := true
    target := target
    interval := interval
    healthy_after := healthy_after
    successful_checks_since_down := 0 }

/-- One iteration of the state update in `Monitor._monitor`
(src/monitor.py lines 85-101), given the probe result `alive`.
The branches appear in the order of the if/elif chain of the source. -/
def monStep (m : Monitor) (alive : Bool) : Monitor × MAction :=
  if m.healthy && !alive then
    ({ m with healthy := false, successful_checks_since_down := 0 }, MAction.runOnDown)
  else if !m.healthy && alive then
    if ((m.successful_checks_since_down + 1 : ℕ) : ℚ) ≥ m.healthy_after then
      ({ m with healthy := true,
                successful_checks_since_down := m.successful_checks_since_down + 1 },
       MAction.runOnUp)
    else
      ({ m with successful_checks_since_down := m.successful_checks_since_down + 1 },
       MAction.none)
  else if !m.healthy && !alive then
    ({ m with successful_checks_since_down := 0 }, MAction.none)
  else
    (m, MAction.none)

/-- C1: the per-cycle transition function follows the specification table:
healthy and probe success change nothing and fire no action; healthy and
probe failure set healthy to false, reset the counter to 0 and fire
runOnDown; unhealthy and probe success increment the counter by 1 and,
exactly when the incremented counter is at least healthyAfter, set healthy
to true and fire runOnUp; unhealthy and probe failure reset the counter
to 0 and fire no action. -/
theorem monStep_follows_spec_table (m : Monitor) (alive : Bool) :
    monStep m alive =
      if m.healthy then
        if alive then
          (m, MAction.none)
        else
          ({ m with healthy := false, successful_checks_since_down := 0 }, MAction.runOnDown)
      else
        if alive then
          if ((m.successful_checks_since_down + 1 : ℕ) : ℚ) ≥ m.healthy_after then
            ({ m with healthy := true,
                      successful_checks_since_down := m.successful_checks_since_down + 1 },
             MAction.runOnUp)
          else
            ({ m with successful_checks_since_down := m.successful_checks_since_down + 1 },
             MAction.none)
        else
          ({ m with successful_checks_since_down := 0 }, MAction.none) := by
  cases hh : m.healthy <;> cases ha : alive <;> simp [monStep, hh, ha]

/-- The sequence of actions produced by running the monitoring loop on a
list of probe results. -/
def monActions (m : Monitor) : List Bool → List MAction
  | [] => []
  | r :: rs => (monStep m r).2 :: monActions (monStep m r).1 rs

/-- The state of the Monitor object after running the loop on a list of
probe results. -/
def monFinal (m : Monitor) : List Bool → Monitor
  | [] => m
  | r :: rs => monFinal (monStep m r).1 rs

/-- Number of occurrences of a given action in an action sequence. -/
def countAct (a : MAction) : List MAction → ℕ
  | [] => 0
  | b :: rest => (if b = a then 1 else 0) + countAct a rest

/-- Number of unhealthy-to-healthy state transitions along a run. -/
def upEdges (m : Monitor) : List Bool → ℕ
  | [] => 0
  | r :: rs =>
    (if m.healthy = false ∧ (monStep m r).1.healthy = true then 1 else 0)
      + upEdges (monStep m r).1 rs

/-- Number of healthy-to-unhealthy state transitions along a run. -/
def downEdges (m : Monitor) : List Bool → ℕ
  | [] => 0
  | r :: rs =>
    (if m.healthy = true ∧ (monStep m r).1.healthy = false then 1 else 0)
      + downEdges (monStep m r).1 rs

lemma monStep_healthy_after (m : Monitor) (r : Bool) :
    (monStep m r).1.healthy_after = m.healthy_after := by
  cases hh : m.healthy <;> cases hr : r <;> simp [monStep, hh, hr] <;> split <;> simp

lemma monStep_up_iff (m : Monitor) (r : Bool) :
    (monStep m r).2 = MAction.runOnUp ↔
      (m.healthy = false ∧ r = true ∧
        m.healthy_after ≤ ((m.successful_checks_since_down + 1 : ℕ) : ℚ)) := by
  cases hh : m.healthy <;> cases hr : r <;> simp [monStep, hh, hr]
  split <;> simp_all

lemma monStep_up_edge (m : Monitor) (r : Bool) :
    (monStep m r).2 = MAction.runOnUp ↔
      (m.healthy = false ∧ (monStep m r).1.healthy = true) := by
  cases hh : m.healthy <;> cases hr : r <;> simp [monStep, hh, hr]
  split <;> simp_all

lemma monStep_down_iff (m : Monitor) (r : Bool) :
    (monStep m r).2 = MAction.runOnDown ↔ (m.healthy = true ∧ r = false) := by
  cases hh : m.healthy <;> cases hr : r <;> simp [monStep, hh, hr]
  split <;> simp_all

lemma monStep_down_edge (m : Monitor) (r : Bool) :
    (monStep m r).2 = MAction.runOnDown ↔
      (m.healthy = true ∧ (monStep m r).1.healthy = false) := by
  cases hh : m.healthy <;> cases hr : r <;> simp [monStep, hh, hr]
  split <;> simp_all

lemma countAct_up_eq_upEdges (m : Monitor) (rs : List Bool) :
    countAct MAction.runOnUp (monActions m rs) = upEdges m rs := by
  induction rs generalizing m with
  | nil => rfl
  | cons r rs ih =>
    simp only [monActions, countAct, upEdges, ih]
    congr 1
    by_cases h : (monStep m r).2 = MAction.runOnUp
    · rw [if_pos h, if_pos ((monStep_up_edge m r).mp h)]
    · rw [if_neg h, if_neg (fun hc => h ((monStep_up_edge m r).mpr hc))]

lemma countAct_down_eq_downEdges (m : Monitor) (rs : List Bool) :
    countAct MAction.runOnDown (monActions m rs) = downEdges m rs := by
  induction rs generalizing m with
  | nil => rfl
  | cons r rs ih =>
    simp only [monActions, countAct, downEdges, ih]
    congr 1
    by_cases h : (monStep m r).2 = MAction.runOnDown
    · rw [if_pos h, if_pos ((monStep_down_edge m r).mp h)]
    · rw [if_neg h, if_neg (fun hc => h ((monStep_down_edge m r).mpr hc))]

/-- The counter invariant, relative to an integral threshold value n:
while unhealthy the counter is below n, and while healthy it is 0 (never
been down, or down before the first success) or exactly n (after a
recovery). -/
def MonInv (n : ℕ) (m : Monitor) : Prop :=
  m.healthy_after = (n : ℚ) ∧
  (m.healthy = false → m.successful_checks_since_down < n) ∧
  (m.healthy = true → m.successful_checks_since_down = 0 ∨ m.successful_checks_since_down = n)

lemma monStep_preserves_MonInv (n : ℕ) (hn : 1 ≤ n) (m : Monitor) (r : Bool)
    (hm : MonInv n m) : MonInv n (monStep m r).1 := by
  obtain ⟨hfix, hu, hh⟩ := hm
  cases hhealthy : m.healthy <;> cases hr : r
  · have hs : (monStep m false).1 = { m with successful_checks_since_down := 0 } := by
      simp [monStep, hhealthy]
    rw [hs]
    exact ⟨hfix, fun _ => hn, fun h => by rw [hhealthy] at h; exact absurd h (by simp)⟩
  · have hcnt := hu hhealthy
    by_cases hth : m.healthy_after ≤ (m.successful_checks_since_down : ℚ) + 1
    · have hs : (monStep m true).1 =
          { m with healthy := true,
                   successful_checks_since_down := m.successful_checks_since_down + 1 } := by
        simp [monStep, hhealthy, hth]
      rw [hs]
      refine ⟨hfix, fun h => by exact absurd h (by simp), fun _ => Or.inr ?_⟩
      rw [hfix] at hth
      have hth' : n ≤ m.successful_checks_since_down + 1 := by exact_mod_cast hth
      show m.successful_checks_since_down + 1 = n
      omega
    · have hs : (monStep m true).1 =
          { m with successful_checks_since_down := m.successful_checks_since_down + 1 } := by
        simp [monStep, hhealthy, hth]
      rw [hs]
      refine ⟨hfix, fun _ => ?_, fun h => by rw [hhealthy] at h; exact absurd h (by simp)⟩
      rw [hfix, not_le] at hth
      have hth' : m.successful_checks_since_down + 1 < n := by exact_mod_cast hth
      show m.successful_checks_since_down + 1 < n
      omega
  · have hs : (monStep m false).1 =
        { m with healthy := false, successful_checks_since_down := 0 } := by
      simp [monStep, hhealthy]
    rw [hs]
    exact ⟨hfix, fun _ => hn, fun h => by exact absurd h (by simp)⟩
  · have hs : (monStep m true).1 = m := by
      simp [monStep, hhealthy]
    rw [hs]
    exact ⟨hfix, hu, hh⟩

lemma monFinal_preserves_MonInv (n : ℕ) (hn : 1 ≤ n) (m : Monitor) (rs : List Bool)
    (hm : MonInv n m) : MonInv n (monFinal m rs) := by
  induction rs generalizing m with
  | nil => exact hm
  | cons r rs ih => exact ih _ (monStep_preserves_MonInv n hn m r hm)

/-- C2 counterexample: with healthyAfter = 1 and probe results
[fail, success, success] from the initial state, the final cycle is a
success while already healthy with no transition (action none), yet the
counter is 1, nonzero while healthy == true. The claim allows a nonzero
counter only while unhealthy or at the single transition instant. -/
theorem counter_nonzero_while_healthy :
    monActions (Monitor.init "host" 10 1) [false, true, true] =
      [MAction.runOnDown, MAction.runOnUp, MAction.none] ∧
    (monFinal (Monitor.init "host" 10 1) [false, true, true]).healthy = true ∧
    (monFinal (Monitor.init "host" 10 1) [false, true, true]).successful_checks_since_down
      = 1 := by
  refine ⟨?_, ?_, ?_⟩ <;> rfl

/-- C2 amended: for every sequence of probe results from the initial state,
with an integral threshold healthyAfter = n >= 1: while unhealthy the
counter is strictly below n; while healthy the counter is 0 or exactly n
(it stays at n after a recovery, since the code never resets it while
healthy); in particular it never exceeds n. -/
theorem counter_invariant_from_init (n : ℕ) (t : String) (i : ℚ) (rs : List Bool)
    (hn : 1 ≤ n) :
    ((monFinal (Monitor.init t i (n : ℚ)) rs).healthy = false →
      (monFinal (Monitor.init t i (n : ℚ)) rs).successful_checks_since_down < n) ∧
    ((monFinal (Monitor.init t i (n : ℚ)) rs).healthy = true →
      (monFinal (Monitor.init t i (n : ℚ)) rs).successful_checks_since_down = 0 ∨
      (monFinal (Monitor.init t i (n : ℚ)) rs).successful_checks_since_down = n) ∧
    (monFinal (Monitor.init t i (n : ℚ)) rs).successful_checks_since_down ≤ n := by
  have hinit : MonInv n (Monitor.init t i (n : ℚ)) := by
    refine ⟨rfl, fun h => by simp [Monitor.init] at h, fun _ => Or.inl rfl⟩
  have hfin := monFinal_preserves_MonInv n hn _ rs hinit
  obtain ⟨hfix, hu, hh⟩ := hfin
  refine ⟨hu, hh, ?_⟩
  cases hb : (monFinal (Monitor.init t i (n : ℚ)) rs).healthy
  · exact Nat.le_of_lt (hu hb)
  · rcases hh hb with h0 | hn' <;> omega

/-- Witness for the C2 amended theorem at n = 3 with probe results
[fail, success, success, success]. -/
theorem counter_invariant_from_init_witness :
    ((monFinal (Monitor.init "host" 10 ((3 : ℕ) : ℚ)) [false, true, true, true]).healthy
        = false →
      (monFinal (Monitor.init "host" 10 ((3 : ℕ) : ℚ))
        [false, true, true, true]).successful_checks_since_down < 3) ∧
    ((monFinal (Monitor.init "host" 10 ((3 : ℕ) : ℚ)) [false, true, true, true]).healthy
        = true →
      (monFinal (Monitor.init "host" 10 ((3 : ℕ) : ℚ))
        [false, true, true, true]).successful_checks_since_down = 0 ∨
      (monFinal (Monitor.init "host" 10 ((3 : ℕ) : ℚ))
        [false, true, true, true]).successful_checks_since_down = 3) ∧
    (monFinal (Monitor.init "host" 10 ((3 : ℕ) : ℚ))
      [false, true, true, true]).successful_checks_since_down ≤ 3 :=
  counter_invariant_from_init 3 "host" 10 [false, true, true, true] (by norm_num)

/-- C4: along any run the runOnUp action fires exactly once per
unhealthy-to-healthy transition (the counts agree); a cycle fires runOnUp
precisely when the monitor is unhealthy, the probe succeeds and the
incremented counter reaches healthyAfter; with healthyAfter = 1 a single
success while unhealthy makes the monitor healthy and fires runOnUp; and
no cycle that starts healthy ever fires runOnUp. -/
theorem runOnUp_fires_exactly_at_recovery (m : Monitor) (alive : Bool) (rs : List Bool) :
    countAct MAction.runOnUp (monActions m rs) = upEdges m rs ∧
    ((monStep m alive).2 = MAction.runOnUp ↔
      (m.healthy = false ∧ alive = true ∧
        m.healthy_after ≤ ((m.successful_checks_since_down + 1 : ℕ) : ℚ))) ∧
    (m.healthy = false → m.healthy_after = 1 →
      (monStep m true).1.healthy = true ∧ (monStep m true).2 = MAction.runOnUp) ∧
    (m.healthy = true → (monStep m alive).2 ≠ MAction.runOnUp) := by
  refine ⟨countAct_up_eq_upEdges m rs, monStep_up_iff m alive, ?_, ?_⟩
  · intro hh h1
    have hth : m.healthy_after ≤ ((m.successful_checks_since_down + 1 : ℕ) : ℚ) := by
      rw [h1]
      exact_mod_cast Nat.succ_le_succ (Nat.zero_le m.successful_checks_since_down)
    have hfire : (monStep m true).2 = MAction.runOnUp :=
      (monStep_up_iff m true).mpr ⟨hh, rfl, hth⟩
    exact ⟨((monStep_up_edge m true).mp hfire).2, hfire⟩
  · intro hh hfire
    exact absurd ((monStep_up_iff m alive).mp hfire).1 (by rw [hh]; simp)

/-- Witness for the C4 theorem: an unhealthy monitor with healthyAfter = 1
becomes healthy and fires runOnUp on a single successful probe. -/
theorem runOnUp_fires_exactly_at_recovery_witness :
    (monStep ⟨false, "host", 10, 1, 0⟩ true).1.healthy = true ∧
    (monStep ⟨false, "host", 10, 1, 0⟩ true).2 = MAction.runOnUp :=
  (runOnUp_fires_exactly_at_recovery ⟨false, "host", 10, 1, 0⟩ true []).2.2.1 rfl rfl

/-- C5: along any run the runOnDown action fires exactly once per
healthy-to-unhealthy transition (the counts agree); a cycle fires
runOnDown precisely when the monitor is healthy and the probe fails; and
no cycle that starts unhealthy ever fires runOnDown. -/
theorem runOnDown_fires_exactly_on_down_edge (m : Monitor) (alive : Bool) (rs : List Bool) :
    countAct MAction.runOnDown (monActions m rs) = downEdges m rs ∧
    ((monStep m alive).2 = MAction.runOnDown ↔ (m.healthy = true ∧ alive = false)) ∧
    (m.healthy = false → (monStep m alive).2 ≠ MAction.runOnDown) := by
  refine ⟨countAct_down_eq_downEdges m rs, monStep_down_iff m alive, ?_⟩
  intro hh hfire
  exact absurd ((monStep_down_iff m alive).mp hfire).1 (by rw [hh]; simp)

/-- Witness for the C5 theorem: a healthy monitor fires runOnDown on a
failed probe. -/
theorem runOnDown_fires_exactly_on_down_edge_witness :
    (monStep (Monitor.init "host" 10 2) false).2 = MAction.runOnDown :=
  ((runOnDown_fires_exactly_on_down_edge (Monitor.init "host" 10 2) false []).2.1).mpr
    ⟨rfl, rfl⟩

/-- Exceptions of the embedded Python fragments: a missing dictionary key
in an os.environ lookup, or the expiry of the timeout given to
subprocess.call. -/
inductive PyErr where
  | keyError (key : String)
  | timeoutExpired
deriving DecidableEq

/-- Outcome of the subprocess.call invocation issued by Monitor._is_alive:
either the ping process exited with a return code, or the 30 second
timeout expired, in which case subprocess.call raises TimeoutExpired. -/
inductive CallOutcome where
  | exited (returncode : ℤ)
  | timedOut
deriving DecidableEq

/-- The argument vector passed to subprocess.call by Monitor._is_alive
(src/monitor.py line 107): 3 echo requests at a 0.333 second interval. -/
def pingArgs (host : String) : List String :=
  ["ping", "-c", "3", "-i", "0.333", host]

/-- The overall timeout in seconds passed to subprocess.call by
Monitor._is_alive (src/monitor.py line 108). -/
def pingTimeout : ℕ := 30

/-- Monitor._is_alive (src/monitor.py lines 104-115): returns True when
the ping process exit status is 0 and False otherwise. The function has
no exception handler, so when the timeout expires the TimeoutExpired
exception raised by subprocess.call propagates out of the call. -/
def is_alive (outcome : CallOutcome) : Except PyErr Bool :=
  match outcome with
  | CallOutcome.exited rc => if rc = 0 then Except.ok true else Except.ok false
  | CallOutcome.timedOut => Except.error PyErr.timeoutExpired

/-- C3 counterexample: when the 30 second timeout expires, the probe does
not return false; the TimeoutExpired exception propagates instead. -/
theorem probe_timeout_raises :
    is_alive CallOutcome.timedOut ≠ Except.ok false ∧
    is_alive CallOutcome.timedOut = Except.error PyErr.timeoutExpired := by
  exact ⟨by simp [is_alive], rfl⟩

/-- C3 amended: the probe issues 3 echo requests spaced at 0.333 seconds
bounded by an overall 30 second timeout; it returns true exactly when the
ping process exits with status 0 and false exactly on a nonzero exit
status; when the timeout expires, the TimeoutExpired exception raised by
the process call propagates rather than yielding false. -/
theorem probe_result_amended (rc : ℤ) (host : String) :
    (is_alive (CallOutcome.exited rc) = Except.ok true ↔ rc = 0) ∧
    (is_alive (CallOutcome.exited rc) = Except.ok false ↔ rc ≠ 0) ∧
    is_alive CallOutcome.timedOut = Except.error PyErr.timeoutExpired ∧
    pingArgs host = ["ping", "-c", "3", "-i", "0.333", host] ∧
    pingTimeout = 30 := by
  refine ⟨?_, ?_, rfl, rfl, rfl⟩ <;> by_cases hrc : rc = 0 <;> simp [is_alive, hrc]

/-- Witness for the C3 amended theorem at exit statuses 0 and 1. -/
theorem probe_result_amended_witness :
    is_alive (CallOutcome.exited 0) = Except.ok true ∧
    is_alive (CallOutcome.exited 1) = Except.ok false :=
  ⟨(probe_result_amended 0 "host").1.mpr rfl,
   (probe_result_amended 1 "host").2.1.mpr (by norm_num)⟩

/-- Result of Monitor._shellexec (src/monitor.py lines 117-123) as a
function of the exit status reported by the spawned shell: the status is
returned unchanged and a warning is logged exactly when it is nonzero. -/
structure ShellResult where
  returncode : ℤ
  warned : Bool
deriving DecidableEq

/-- Monitor._shellexec (src/monitor.py lines 117-123). -/
def shellexec (returncode : ℤ) : ShellResult :=
  { returncode := returncode, warned := decide (returncode ≠ 0) }

/-- One full iteration of Monitor._monitor including command execution:
given the probe result and the exit status the shell reports when a
command is run, yields the new state, the action, and the shell result of
the command when one ran. -/
def monCycle (m : Monitor) (alive : Bool) (rc : ℤ) :
    Monitor × MAction × Option ShellResult :=
  if m.healthy && !alive then
    ({ m with healthy := false, successful_checks_since_down := 0 },
     MAction.runOnDown, some (shellexec rc))
  else if !m.healthy && alive then
    if ((m.successful_checks_since_down + 1 : ℕ) : ℚ) ≥ m.healthy_after then
      ({ m with healthy := true,
                successful_checks_since_down := m.successful_checks_since_down + 1 },
       MAction.runOnUp, some (shellexec rc))
    else
      ({ m with successful_checks_since_down := m.successful_checks_since_down + 1 },
       MAction.none, none)
  else if !m.healthy && !alive then
    ({ m with successful_checks_since_down := 0 }, MAction.none, none)
  else
    (m, MAction.none, none)

/-- The monitoring loop over a list of cycles, each given by a probe
result and the exit status of the command when one is run; the loop
produces one trace entry per iteration whatever the exit statuses are. -/
def monLoopRun (m : Monitor) : List (Bool × ℤ) → List (Monitor × MAction)
  | [] => []
  | (r, rc) :: rest =>
    ((monCycle m r rc).1, (monCycle m r rc).2.1) :: monLoopRun (monCycle m r rc).1 rest

lemma monCycle_state (m : Monitor) (alive : Bool) (rc : ℤ) :
    (monCycle m alive rc).1 = (monStep m alive).1 := by
  cases hh : m.healthy <;> cases ha : alive <;> simp [monCycle, monStep, hh, ha]
  split <;> rfl

lemma monCycle_action (m : Monitor) (alive : Bool) (rc : ℤ) :
    (monCycle m alive rc).2.1 = (monStep m alive).2 := by
  cases hh : m.healthy <;> cases ha : alive <;> simp [monCycle, monStep, hh, ha]
  split <;> rfl

lemma monLoopRun_length (m : Monitor) (xs : List (Bool × ℤ)) :
    (monLoopRun m xs).length = xs.length := by
  induction xs generalizing m with
  | nil => rfl
  | cons x rest ih => cases x; simp [monLoopRun, ih]

/-- C8: the exit status of an executed command does not alter the health
state or counter decided for that cycle (they are those of the pure
transition, whatever the status); a nonzero status is logged as a warning
and returned unchanged; and the loop continues to the next iteration,
producing one trace entry for this cycle and one per remaining cycle. -/
theorem nonzero_exit_status_is_only_warned (m : Monitor) (alive : Bool) (rc : ℤ)
    (rest : List (Bool × ℤ)) (hrc : rc ≠ 0) :
    (monCycle m alive rc).1 = (monStep m alive).1 ∧
    (monCycle m alive rc).2.1 = (monStep m alive).2 ∧
    (shellexec rc).warned = true ∧
    (shellexec rc).returncode = rc ∧
    (monLoopRun m ((alive, rc) :: rest)).length = rest.length + 1 := by
  refine ⟨monCycle_state m alive rc, monCycle_action m alive rc, ?_, rfl, ?_⟩
  · simp [shellexec, hrc]
  · simp [monLoopRun, monLoopRun_length]

/-- Witness for the C8 theorem: a down transition whose ON_DOWN command
exits with status 7. -/
theorem nonzero_exit_status_is_only_warned_witness :
    (monCycle (Monitor.init "host" 10 2) false 7).1 =
      (monStep (Monitor.init "host" 10 2) false).1 ∧
    (monCycle (Monitor.init "host" 10 2) false 7).2.1 =
      (monStep (Monitor.init "host" 10 2) false).2 ∧
    (shellexec 7).warned = true ∧
    (shellexec 7).returncode = 7 ∧
    (monLoopRun (Monitor.init "host" 10 2) [(false, 7)]).length =
      List.length ([] : List (Bool × ℤ)) + 1 :=
  nonzero_exit_status_is_only_warned (Monitor.init "host" 10 2) false 7 [] (by norm_num)

/-- One iteration of Monitor._monitor with the Python evaluation order of
the transition branches made explicit. downExec is the combined outcome
of the environment lookup of ON_DOWN and the command execution on the
down edge, upExec the same for ON_UP; an error value models an exception
raised at that point. On the down edge the command runs before the
assignments to healthy and to the counter (src/monitor.py lines 87-89),
so an exception escapes with the state unchanged; on the up edge the
counter has been incremented and healthy has been set to True before the
command runs (lines 92-96), so an exception escapes with the transition
already committed. An error result carries the attribute state at the
moment the exception leaves the iteration. -/
def monCycleE (m : Monitor) (alive : Bool) (downExec upExec : Except PyErr ℤ) :
    Except (PyErr × Monitor) (Monitor × MAction) :=
  if m.healthy && !alive then
    match downExec with
    | Except.error e => Except.error (e, m)
    | Except.ok _ =>
      Except.ok ({ m with healthy := false, successful_checks_since_down := 0 },
                 MAction.runOnDown)
  else if !m.healthy && alive then
    if ((m.successful_checks_since_down + 1 : ℕ) : ℚ) ≥ m.healthy_after then
      match upExec with
      | Except.error e =>
        Except.error (e, { m with healthy := true,
                                  successful_checks_since_down :=
                                    m.successful_checks_since_down + 1 })
      | Except.ok _ =>
        Except.ok ({ m with healthy := true,
                            successful_checks_since_down :=
                              m.successful_checks_since_down + 1 },
                   MAction.runOnUp)
    else
      Except.ok ({ m with successful_checks_since_down := m.successful_checks_since_down + 1 },
                 MAction.none)
  else if !m.healthy && !alive then
    Except.ok ({ m with successful_checks_since_down := 0 }, MAction.none)
  else
    Except.ok (m, MAction.none)

/-- C10: on the healthy-to-unhealthy edge the ON_DOWN lookup and execution
precede the assignments, so an exception there escapes with the state
unchanged, still healthy with the prior counter; on the
unhealthy-to-healthy edge healthy is set to true, after the counter
increment, before the ON_UP lookup and execution, so an exception there
escapes with the transition to healthy already committed. -/
theorem command_exception_ordering (m : Monitor) (e : PyErr)
    (downExec upExec : Except PyErr ℤ) :
    (m.healthy = true →
      monCycleE m false (Except.error e) upExec = Except.error (e, m)) ∧
    (m.healthy = false →
      m.healthy_after ≤ ((m.successful_checks_since_down + 1 : ℕ) : ℚ) →
      monCycleE m true downExec (Except.error e) =
        Except.error (e, { m with healthy := true,
                                  successful_checks_since_down :=
                                    m.successful_checks_since_down + 1 })) := by
  constructor
  · intro hh
    simp [monCycleE, hh]
  · intro hh hth
    have hth' : m.healthy_after ≤ (m.successful_checks_since_down : ℚ) + 1 := by
      exact_mod_cast hth
    simp [monCycleE, hh, hth']

/-- Witness for the C10 theorem: a healthy monitor with a failing probe
and a missing ON_DOWN variable escapes unchanged; an unhealthy monitor at
the threshold with a missing ON_UP variable escapes already healthy. -/
theorem command_exception_ordering_witness :
    monCycleE (Monitor.init "host" 10 2) false (Except.error (PyErr.keyError "ON_DOWN"))
        (Except.ok 0) =
      Except.error (PyErr.keyError "ON_DOWN", Monitor.init "host" 10 2) ∧
    monCycleE ⟨false, "host", 10, 2, 1⟩ true (Except.ok 0)
        (Except.error (PyErr.keyError "ON_UP")) =
      Except.error (PyErr.keyError "ON_UP", ⟨true, "host", 10, 2, 2⟩) :=
  ⟨(command_exception_ordering (Monitor.init "host" 10 2) (PyErr.keyError "ON_DOWN")
      (Except.error (PyErr.keyError "ON_DOWN")) (Except.ok 0)).1 rfl,
   (command_exception_ordering ⟨false, "host", 10, 2, 1⟩ (PyErr.keyError "ON_UP")
      (Except.ok 0) (Except.error (PyErr.keyError "ON_UP"))).2 rfl (by norm_num)⟩

/-- Outcome of calling an entry point of the Monitor object. -/
inductive StartOutcome where
  | raisedNotImplemented
  | entersMonitorLoop
deriving DecidableEq

/-- Monitor.start (src/monitor.py lines 56-64): with block = False it
raises NotImplementedError before anything else happens; with block =
True it logs and enters the infinite monitoring loop. -/
def Monitor.start (block : Bool) : StartOutcome :=
  if !block then StartOutcome.raisedNotImplemented else StartOutcome.entersMonitorLoop

/-- Monitor.stop (src/monitor.py lines 66-70): unconditionally raises
NotImplementedError. -/
def Monitor.stop : StartOutcome := StartOutcome.raisedNotImplemented

/-- C9: calling stop, or start in non-blocking mode, raises
NotImplementedError, a loud reportable error rather than a silent no-op;
in particular start with block = false raises and does not enter the
monitoring loop. -/
theorem stop_and_nonblocking_start_raise :
    Monitor.start false = StartOutcome.raisedNotImplemented ∧
    Monitor.start false ≠ StartOutcome.entersMonitorLoop ∧
    Monitor.stop = StartOutcome.raisedNotImplemented := by
  refine ⟨rfl, ?_, rfl⟩
  simp [Monitor.start]

/-- The process environment, restricted to the variables the program
reads; a field is the value of the variable when it is set. -/
structure Env where
  TARGET : Option String
  INTERVAL : Option String
  HEALTHY_AFTER : Option String
  ON_DOWN : Option String
  ON_UP : Option String
deriving DecidableEq

/-- Value of a list of decimal digit characters, most significant
first. -/
def digitsToNat (cs : List Char) : ℕ :=
  cs.foldl (fun a c => 10 * a + (c.toNat - 48)) 0

/-- Model of the Python float builtin restricted to plain decimal
literals with an optional sign and an optional fractional part, which
covers every numeric configuration string considered here; any other
string raises ValueError, modelled as none. -/
def pyFloat? (s : String) : Option ℚ :=
  let signBody : Bool × List Char :=
    match s.toList with
    | '-' :: rest => (true, rest)
    | '+' :: rest => (false, rest)
    | cs => (false, cs)
  let ipfp := signBody.2.span (fun c => c != '.')
  let mag? : Option ℚ :=
    match ipfp.2 with
    | [] =>
      if ipfp.1 ≠ [] ∧ ipfp.1.all Char.isDigit then
        some ((digitsToNat ipfp.1 : ℕ) : ℚ)
      else
        none
    | _ :: fp =>
      if ipfp.1.all Char.isDigit ∧ fp.all Char.isDigit ∧ (ipfp.1 ≠ [] ∨ fp ≠ []) then
        some (((digitsToNat ipfp.1 : ℕ) : ℚ)
          + ((digitsToNat fp : ℕ) : ℚ) / (10 : ℚ) ^ fp.length)
      else
        none
  mag?.map (fun q => if signBody.1 then -q else q)

/-- The configuration main passes to the Monitor constructor. -/
structure Config where
  target : String
  interval : ℚ
  healthy_after : ℚ
deriving DecidableEq

/-- Startup failures of main: a missing TARGET raises KeyError, and a
non-numeric INTERVAL or HEALTHY_AFTER raises ValueError in float. -/
inductive StartupErr where
  | keyErrorTarget
  | valueErrorInterval
  | valueErrorHealthyAfter
deriving DecidableEq

/-- The configuration reading of main (src/monitor.py lines 126-135):
TARGET is a required lookup, INTERVAL and HEALTHY_AFTER default to 10 and
12 and are converted by float. No other validation is performed before
the Monitor is built and started. -/
def mainStartup (env : Env) : Except StartupErr Config :=
  match env.TARGET with
  | none => Except.error StartupErr.keyErrorTarget
  | some t =>
    match pyFloat? (env.INTERVAL.getD "10") with
    | none => Except.error StartupErr.valueErrorInterval
    | some i =>
      match pyFloat? (env.HEALTHY_AFTER.getD "12") with
      | none => Except.error StartupErr.valueErrorHealthyAfter
      | some h => Except.ok { target := t, interval := i, healthy_after := h }

/-- The Monitor object main constructs from a configuration. -/
def monitorOf (cfg : Config) : Monitor :=
  Monitor.init cfg.target cfg.interval cfg.healthy_after

/-- An environment with HEALTHY_AFTER set to 0 and the command variables
unset. -/
def envHealthyAfterZero : Env :=
  { TARGET := some "192.0.2.1", INTERVAL := none, HEALTHY_AFTER := some "0",
    ON_DOWN := none, ON_UP := none }

/-- An environment with TARGET set and every other variable unset. -/
def envNoCommands : Env :=
  { TARGET := some "192.0.2.1", INTERVAL := none, HEALTHY_AFTER := none,
    ON_DOWN := none, ON_UP := none }

/-- An environment with TARGET unset. -/
def envNoTarget : Env :=
  { TARGET := none, INTERVAL := none, HEALTHY_AFTER := none,
    ON_DOWN := none, ON_UP := none }

/-- C6 counterexample: a configured healthyAfter of 0 is not rejected.
Startup succeeds, the Monitor is built with healthy_after = 0 and blocking
start enters the monitoring loop; nothing in main or Monitor raises a
configuration error. -/
theorem healthy_after_zero_accepted :
    mainStartup envHealthyAfterZero =
      Except.ok { target := "192.0.2.1", interval := 10, healthy_after := 0 } ∧
    monitorOf { target := "192.0.2.1", interval := 10, healthy_after := 0 } =
      { healthy := true, target := "192.0.2.1", interval := 10, healthy_after := 0,
        successful_checks_since_down := 0 } ∧
    Monitor.start true = StartOutcome.entersMonitorLoop := by
  refine ⟨by rfl, rfl, rfl⟩

/-- C6 amended: neither main nor the Monitor constructor validates
healthyAfter. Any environment whose TARGET is set and whose numeric
values parse, whatever the healthyAfter value, 0 and negative included,
passes startup, builds the Monitor with that value stored unchanged and
in the healthy initial state, and blocking start enters the monitoring
loop; only a missing TARGET or a non-numeric value fails startup. -/
theorem healthy_after_not_validated (env : Env) (t : String) (i h : ℚ)
    (ht : env.TARGET = some t)
    (hi : pyFloat? (env.INTERVAL.getD "10") = some i)
    (hh : pyFloat? (env.HEALTHY_AFTER.getD "12") = some h) :
    mainStartup env = Except.ok { target := t, interval := i, healthy_after := h } ∧
    (monitorOf { target := t, interval := i, healthy_after := h }).healthy_after = h ∧
    (monitorOf { target := t, interval := i, healthy_after := h }).healthy = true ∧
    Monitor.start true = StartOutcome.entersMonitorLoop := by
  refine ⟨?_, rfl, rfl, rfl⟩
  simp [mainStartup, ht, hi, hh]

/-- Witness for the C6 amended theorem: the environment with
HEALTHY_AFTER set to 0 passes startup with healthy_after = 0. -/
theorem healthy_after_not_validated_witness :
    mainStartup envHealthyAfterZero =
      Except.ok { target := "192.0.2.1", interval := 10, healthy_after := 0 } ∧
    (monitorOf { target := "192.0.2.1", interval := 10, healthy_after := 0 }).healthy_after
      = 0 ∧
    (monitorOf { target := "192.0.2.1", interval := 10, healthy_after := 0 }).healthy
      = true ∧
    Monitor.start true = StartOutcome.entersMonitorLoop :=
  healthy_after_not_validated envHealthyAfterZero "192.0.2.1" 10 0 rfl (by decide)
    (by decide)

/-- The monitoring loop driven with fixed command outcomes: runs the
cycles for the given probe results, returning the number of probes issued
and, when an exception escaped an iteration, that exception. The probe
happens at the top of each iteration, before any command lookup, so an
iteration that raises has still issued its probe. -/
def monRunE (downExec upExec : Except PyErr ℤ) : Monitor → List Bool → ℕ × Option (PyErr × Monitor)
  | _, [] => (0, none)
  | m, r :: rs =>
    match monCycleE m r downExec upExec with
    | Except.ok s =>
      ((monRunE downExec upExec s.1 rs).1 + 1, (monRunE downExec upExec s.1 rs).2)
    | Except.error e => (1, some e)

lemma monCycleE_healthy_success (m : Monitor) (downExec upExec : Except PyErr ℤ)
    (hh : m.healthy = true) :
    monCycleE m true downExec upExec = Except.ok (m, MAction.none) := by
  simp [monCycleE, hh]

/-- C7 counterexample: with TARGET set but ON_DOWN and ON_UP unset,
startup succeeds and the loop issues two probes without any error, so a
missing command variable neither fails startup nor prevents probes. -/
theorem missing_command_not_startup_failure :
    mainStartup envNoCommands =
      Except.ok { target := "192.0.2.1", interval := 10, healthy_after := 12 } ∧
    monRunE (Except.error (PyErr.keyError "ON_DOWN"))
        (Except.error (PyErr.keyError "ON_UP"))
        (monitorOf { target := "192.0.2.1", interval := 10, healthy_after := 12 })
        [true, true] =
      (2, none) := by
  refine ⟨by rfl, ?_⟩
  rfl

/-- C7 amended: a missing TARGET is a startup failure, KeyError before
the loop, so no probe is ever issued; a missing ON_DOWN or ON_UP however
is not checked at startup: while the connection stays healthy the loop
probes indefinitely, and the KeyError surfaces only at the transition
that needs the command, after the probe of that cycle, with the state
unchanged. -/
theorem missing_config_behaviour (env : Env) (m : Monitor) (rs : List Bool)
    (e : PyErr) (upExec : Except PyErr ℤ)
    (htarget : env.TARGET = none) (hhealthy : m.healthy = true)
    (hall : ∀ r ∈ rs, r = true) :
    mainStartup env = Except.error StartupErr.keyErrorTarget ∧
    monRunE (Except.error e) upExec m rs = (rs.length, none) ∧
    monCycleE m false (Except.error e) upExec = Except.error (e, m) := by
  refine ⟨by simp [mainStartup, htarget], ?_, by simp [monCycleE, hhealthy]⟩
  induction rs with
  | nil => rfl
  | cons r rs ih =>
    have hr : r = true := hall r (List.mem_cons_self r rs)
    rw [hr]
    have hstep := monCycleE_healthy_success m (Except.error e) upExec hhealthy
    have ihrs := ih (fun x hx => hall x (List.mem_cons_of_mem r hx))
    simp [monRunE, hstep, ihrs]

/-- Witness for the C7 amended theorem: an environment without TARGET,
and a healthy monitor probing twice with missing command variables. -/
theorem missing_config_behaviour_witness :
    mainStartup envNoTarget = Except.error StartupErr.keyErrorTarget ∧
    monRunE (Except.error (PyErr.keyError "ON_DOWN"))
        (Except.error (PyErr.keyError "ON_UP"))
        (Monitor.init "192.0.2.1" 10 12) [true, true] =
      (List.length [true, true], none) ∧
    monCycleE (Monitor.init "192.0.2.1" 10 12) false
        (Except.error (PyErr.keyError "ON_DOWN"))
        (Except.error (PyErr.keyError "ON_UP")) =
      Except.error (PyErr.keyError "ON_DOWN", Monitor.init "192.0.2.1" 10 12) :=
  missing_config_behaviour envNoTarget (Monitor.init "192.0.2.1" 10 12) [true, true]
    (PyErr.keyError "ON_DOWN") (Except.error (PyErr.keyError "ON_UP"))
    rfl rfl (by decide)
